import Mathlib

/-!
Verification of the order-cache service (`rust-wb-l0`).

The development shallowly embeds the two cores of the repository:
* the generic TTL cache of `src/cache.rs` (`Cache::get_record`,
  `Cache::update_record`, `Cache::cleanup_expired`), and
* the transactional aggregate write / cache-aside read of `src/routes.rs`
  (`create_order_handler`, `get_order_handler` and the per-entity services).

Modelling conventions:
* `Instant` is modelled by a `Nat`; each operation takes the current instant
  `now` as an explicit argument (`Instant::now()`).  `Duration` is a `Nat` in
  the same units; `now.duration_since(earlier)` is truncated subtraction,
  matching the saturating behaviour of `Instant::duration_since`.
* `Uuid` is modelled by a `Nat`; the server-side uuid generator of the
  `orders` table is a counter `next_uid` in the database state.
* The `HashMap` of the cache and the four tables are association lists;
  `HashMap::insert` is remove-then-cons, `HashMap::remove` and `retain` are
  `List.filter`.
* A SQL transaction is a snapshot/draft pair: statements act on the draft,
  `commit` installs the draft, `rollback` restores the snapshot.
-/

set_option maxRecDepth 100000

namespace RustWbL0

/-- Equality of `Except` results is decidable componentwise (needed to
evaluate handler results on concrete inputs). -/
instance {ε α : Type} [DecidableEq ε] [DecidableEq α] :
    DecidableEq (Except ε α) := fun x y =>
  match x, y with
  | .error a, .error b =>
    if h : a = b then .isTrue (by rw [h])
    else .isFalse (fun hc => h (by injection hc))
  | .error _, .ok _ => .isFalse (fun hc => Except.noConfusion hc)
  | .ok _, .error _ => .isFalse (fun hc => Except.noConfusion hc)
  | .ok a, .ok b =>
    if h : a = b then .isTrue (by rw [h])
    else .isFalse (fun hc => h (by injection hc))

abbrev Uuid := Nat

/-- `CachedRecord<T>` from `src/cache.rs`: payload plus TTL bookkeeping. -/
structure CachedRecord (T : Type) where
  data : T
  time_to_live : Nat
  last_accessed : Nat
  deriving DecidableEq

/-- `Cache<T>` from `src/cache.rs`: a keyed map of cached records (the
`Arc<Mutex<...>>` wrapper is concurrency plumbing; every operation holds the
single lock for its whole body, so the sequential functions below are the
per-operation semantics). -/
structure Cache (T : Type) where
  records : List (Uuid × CachedRecord T)
  deriving DecidableEq

/-- `Cache::get_record` (`src/cache.rs` lines 27-42).  Looks the key up; a
record whose elapsed time strictly exceeds its TTL is removed and `none`
returned, otherwise a clone of the record is returned and the map is left
untouched.  The local `mutable_record` with refreshed `last_accessed` is
built exactly as in the source and never used (the source returns
`record.clone()`, not the mutated clone). -/
def Cache.get_record {T : Type} (c : Cache T) (now : Nat) (key : Uuid) :
    Option (CachedRecord T) × Cache T :=
  match c.records.lookup key with
  | some record =>
    let _mutable_record := { record with last_accessed := now }
    if now - record.last_accessed > record.time_to_live then
      (none, ⟨c.records.filter (fun p => p.1 != key)⟩)
    else
      (some record, c)
  | none => (none, c)

/-- `Cache::update_record` (`src/cache.rs` lines 44-53): unconditionally
insert/overwrite the key with fresh `last_accessed = now` and a fixed TTL of
`Duration::from_secs(60)`. -/
def Cache.update_record {T : Type} (c : Cache T) (now : Nat) (key : Uuid)
    (new_data : T) : Cache T :=
  let record : CachedRecord T :=
    { data := new_data, time_to_live := 60, last_accessed := now }
  ⟨(key, record) :: c.records.filter (fun p => p.1 != key)⟩

/-- `Cache::cleanup_expired` (`src/cache.rs` lines 55-59): retain exactly the
records with `now.duration_since(last_accessed) < time_to_live`. -/
def Cache.cleanup_expired {T : Type} (c : Cache T) (now : Nat) : Cache T :=
  ⟨c.records.filter (fun p => now - p.2.last_accessed < p.2.time_to_live)⟩

/-- Well-formedness of the map model: keys are pairwise distinct, as they are
in a `HashMap`. -/
def Cache.wf {T : Type} (c : Cache T) : Prop :=
  (c.records.map Prod.fst).Nodup

instance {T : Type} (c : Cache T) : Decidable (Cache.wf c) :=
  inferInstanceAs (Decidable ((c.records.map Prod.fst).Nodup))

/- Association-list lemmas used throughout. -/

theorem lookup_eq_none_of_keys {α : Type} {l : List (Uuid × α)} {k : Uuid}
    (h : ∀ p ∈ l, p.1 ≠ k) : l.lookup k = none := by
  induction l with
  | nil => rfl
  | cons hd tl ih =>
    have hhd : hd.1 ≠ k := h hd (List.mem_cons_self _ _)
    obtain ⟨k', v⟩ := hd
    simp only [List.lookup]
    have : (k == k') = false := by
      simp only [ne_eq] at hhd
      simp [beq_iff_eq]
      exact fun hk => hhd hk.symm
    rw [this]
    exact ih (fun p hp => h p (List.mem_cons_of_mem _ hp))

theorem lookup_filter_self {α : Type} (l : List (Uuid × α)) (k : Uuid) :
    (l.filter (fun p => p.1 != k)).lookup k = none := by
  apply lookup_eq_none_of_keys
  intro p hp
  have := List.of_mem_filter hp
  simpa [bne_iff_ne] using this

theorem lookup_filter_other {α : Type} (l : List (Uuid × α)) (k k' : Uuid)
    (hne : k' ≠ k) :
    (l.filter (fun p => p.1 != k)).lookup k' = l.lookup k' := by
  induction l with
  | nil => rfl
  | cons hd tl ih =>
    obtain ⟨k₀, v⟩ := hd
    by_cases hk : k₀ = k
    · subst hk
      have h1 : ((k₀, v).1 != k₀) = false := by simp
      have h2 : (k' == k₀) = false := by
        simp [beq_iff_eq]
        exact hne
      simp only [List.filter_cons, h1, List.lookup, h2]
      simpa using ih
    · have h1 : ((k₀, v).1 != k) = true := by simpa [bne_iff_ne] using hk
      simp only [List.filter_cons, h1, List.lookup]
      cases hbeq : (k' == k₀) with
      | true => rfl
      | false => simpa using ih

theorem lookup_filter_keep {α : Type} {l : List (Uuid × α)}
    {p : Uuid × α → Bool} {k : Uuid} {r : α}
    (hl : l.lookup k = some r) (hp : p (k, r) = true) :
    (l.filter p).lookup k = some r := by
  induction l with
  | nil => simp [List.lookup] at hl
  | cons hd tl ih =>
    obtain ⟨k₀, v⟩ := hd
    simp only [List.lookup] at hl
    cases hbeq : (k == k₀) with
    | true =>
      rw [hbeq] at hl
      simp only at hl
      have hkk : k = k₀ := by simpa [beq_iff_eq] using hbeq
      subst hkk
      cases hl
      simp only [List.filter_cons, hp, List.lookup]
      simp
    | false =>
      rw [hbeq] at hl
      simp only at hl
      cases hpv : p (k₀, v) with
      | true =>
        simp only [List.filter_cons, hpv, List.lookup, hbeq]
        exact ih hl
      | false =>
        simp only [List.filter_cons, hpv]
        exact ih hl

theorem lookup_filter_drop {α : Type} {l : List (Uuid × α)}
    {p : Uuid × α → Bool} {k : Uuid} {r : α}
    (hnd : (l.map Prod.fst).Nodup)
    (hl : l.lookup k = some r) (hp : p (k, r) = false) :
    (l.filter p).lookup k = none := by
  induction l with
  | nil => simp [List.lookup] at hl
  | cons hd tl ih =>
    obtain ⟨k₀, v⟩ := hd
    simp only [List.map_cons, List.nodup_cons] at hnd
    obtain ⟨hk₀, hndtl⟩ := hnd
    simp only [List.lookup] at hl
    cases hbeq : (k == k₀) with
    | true =>
      rw [hbeq] at hl
      simp only at hl
      have hkk : k = k₀ := by simpa [beq_iff_eq] using hbeq
      subst hkk
      cases hl
      simp only [List.filter_cons, hp]
      apply lookup_eq_none_of_keys
      intro q hq
      have hmem : q.1 ∈ tl.map Prod.fst :=
        List.mem_map_of_mem Prod.fst (List.mem_of_mem_filter hq)
      intro hq1
      exact hk₀ (by rw [← hq1]; exact hmem)
    | false =>
      rw [hbeq] at hl
      simp only at hl
      cases hpv : p (k₀, v) with
      | true =>
        simp only [List.filter_cons, hpv, List.lookup, hbeq]
        exact ih hndtl hl
      | false =>
        simp only [List.filter_cons, hpv]
        exact ih hndtl hl

theorem lookup_cons_self {α : Type} (l : List (Uuid × α)) (k : Uuid) (r : α) :
    ((k, r) :: l).lookup k = some r := by
  simp [List.lookup]

/- Equation lemmas for the three branches of `Cache.get_record`. -/

theorem get_record_none {T : Type} {c : Cache T} {now key : Nat}
    (h : c.records.lookup key = none) : c.get_record now key = (none, c) := by
  unfold Cache.get_record
  rw [h]

theorem get_record_live {T : Type} {c : Cache T} {now key : Nat}
    {r : CachedRecord T} (h : c.records.lookup key = some r)
    (hlive : ¬ now - r.last_accessed > r.time_to_live) :
    c.get_record now key = (some r, c) := by
  unfold Cache.get_record
  rw [h]
  simp only
  rw [if_neg hlive]

theorem get_record_expired {T : Type} {c : Cache T} {now key : Nat}
    {r : CachedRecord T} (h : c.records.lookup key = some r)
    (hexp : now - r.last_accessed > r.time_to_live) :
    c.get_record now key = (none, ⟨c.records.filter (fun p => p.1 != key)⟩) := by
  unfold Cache.get_record
  rw [h]
  simp only
  rw [if_pos hexp]

/-- Claim C4 is refuted at the exact expiry boundary: with the fixed TTL of 60,
an entry inserted at instant 0 and looked up at instant 60 has
`now - lastAccessed = 60 ≥ ttl`, so the claim demands an absent result, but
`Cache::get_record` uses a strict comparison and still returns the value. -/
theorem C4_counterexample :
    (60 : Nat) - 0 ≥ 60 ∧
    ((Cache.update_record (⟨[]⟩ : Cache Nat) 0 0 7).get_record 60 0).1
      = some { data := 7, time_to_live := 60, last_accessed := 0 } := by
  decide

/-- Claim C4 (amended): after `insert(k, v)` the entry for `k` exists with
`lastAccessed` equal to the insertion time and fixed TTL 60, overwriting any
previous entry; a lookup strictly before the TTL has elapsed returns `v`; and
a lookup once the elapsed time strictly exceeds the TTL (`now - lastAccessed
> ttl`, not `≥` as claimed) returns absent and removes the entry. -/
theorem C4_insert_then_lookup {T : Type} (c : Cache T) (k : Uuid) (v : T)
    (t0 t1 t2 : Nat) :
    ((c.update_record t0 k v).records.lookup k
        = some { data := v, time_to_live := 60, last_accessed := t0 }) ∧
    (t1 - t0 < 60 →
      ((c.update_record t0 k v).get_record t1 k).1
        = some { data := v, time_to_live := 60, last_accessed := t0 }) ∧
    (t2 - t0 > 60 →
      ((c.update_record t0 k v).get_record t2 k).1 = none ∧
      ((c.update_record t0 k v).get_record t2 k).2.records.lookup k = none) := by
  have hlook : (c.update_record t0 k v).records.lookup k
      = some { data := v, time_to_live := 60, last_accessed := t0 } :=
    lookup_cons_self _ _ _
  refine ⟨hlook, ?_, ?_⟩
  · intro h
    rw [get_record_live hlook (by show ¬ t1 - t0 > 60; omega)]
  · intro h
    rw [get_record_expired hlook (by show t2 - t0 > 60; omega)]
    exact ⟨rfl, lookup_filter_self _ _⟩

/-- A witness for the amended claim C4 at concrete inputs: an entry inserted
at instant 0 is a hit at instant 30 and a removal-miss at instant 100. -/
theorem C4_witness :
    ((Cache.update_record (⟨[]⟩ : Cache Nat) 0 0 7).get_record 30 0).1
      = some { data := 7, time_to_live := 60, last_accessed := 0 } ∧
    ((Cache.update_record (⟨[]⟩ : Cache Nat) 0 0 7).get_record 100 0).1 = none :=
  ⟨(C4_insert_then_lookup (⟨[]⟩ : Cache Nat) 0 7 0 30 100).2.1 (by decide),
   ((C4_insert_then_lookup (⟨[]⟩ : Cache Nat) 0 7 0 30 100).2.2 (by decide)).1⟩

/-- Claim C5 is refuted at the instant where the elapsed time equals the TTL:
for an entry inserted at instant 0 with TTL 60, at instant 60 the lookup path
still returns the entry (strict `>` comparison in `get_record`) while the
sweep path removes it (`retain` keeps only strict `<` in `cleanup_expired`),
so the lazy and active paths disagree on the deadline. -/
theorem C5_counterexample :
    (60 : Nat) - 0 ≥ 60 ∧
    ((Cache.update_record (⟨[]⟩ : Cache Nat) 0 0 7).get_record 60 0).1
      = some { data := 7, time_to_live := 60, last_accessed := 0 } ∧
    ((Cache.update_record (⟨[]⟩ : Cache Nat) 0 0 7).cleanup_expired 60).records.lookup 0
      = none := by
  decide

/-- Claim C5 (amended): `get_record` treats an entry as expired exactly when
`now - lastAccessed > ttl`, while `cleanup_expired` removes it exactly when
`now - lastAccessed ≥ ttl`; the two paths agree at every instant except the
single instant where the elapsed time equals the TTL. -/
theorem C5_lazy_active_agree {T : Type} (c : Cache T) (k : Uuid)
    (r : CachedRecord T) (now : Nat) (hwf : c.wf)
    (hl : c.records.lookup k = some r)
    (hne : now - r.last_accessed ≠ r.time_to_live) :
    ((c.get_record now k).1 = none ↔
      (c.cleanup_expired now).records.lookup k = none) := by
  unfold Cache.get_record Cache.cleanup_expired
  rw [hl]
  simp only
  by_cases hgt : now - r.last_accessed > r.time_to_live
  · rw [if_pos hgt]
    simp only [true_iff]
    have hp : (fun p : Uuid × CachedRecord T =>
        decide (now - p.2.last_accessed < p.2.time_to_live)) (k, r) = false := by
      simp only [decide_eq_false_iff_not]
      omega
    exact lookup_filter_drop hwf hl hp
  · rw [if_neg hgt]
    simp only [reduceCtorEq, false_iff]
    have hp : (fun p : Uuid × CachedRecord T =>
        decide (now - p.2.last_accessed < p.2.time_to_live)) (k, r) = true := by
      simp only [decide_eq_true_eq]
      omega
    rw [lookup_filter_keep hl hp]
    simp

/-- A witness for the amended claim C5: an entry inserted at instant 0,
inspected at instant 100 (elapsed 100 ≠ ttl 60), is expired on both paths. -/
theorem C5_witness :
    (((⟨[(0, { data := 7, time_to_live := 60, last_accessed := 0 })]⟩ :
        Cache Nat).get_record 100 0).1 = none ↔
      ((⟨[(0, { data := 7, time_to_live := 60, last_accessed := 0 })]⟩ :
        Cache Nat).cleanup_expired 100).records.lookup 0 = none) :=
  C5_lazy_active_agree
    (⟨[(0, { data := 7, time_to_live := 60, last_accessed := 0 })]⟩ : Cache Nat)
    0 { data := 7, time_to_live := 60, last_accessed := 0 } 100
    (by decide) (by decide) (by decide)

/-- Claim C6: a cache hit leaves the cache completely unchanged (the clone
with refreshed `last_accessed` in `get_record` is never written back), so
after an insert at `t0`, a hit at `t0 + ttl/2 = t0 + 30` leaves the deadline
where it was and a further lookup at `t0 + ttl + 1 = t0 + 61` is a miss:
reads never extend the time-to-live. -/
theorem C6_no_ttl_extension {T : Type} (c : Cache T) (k : Uuid) (now : Nat)
    (r : CachedRecord T) (v : T) (t0 : Nat) :
    ((c.get_record now k).1 = some r → (c.get_record now k).2 = c) ∧
    (((c.update_record t0 k v).get_record (t0 + 30) k).1
        = some { data := v, time_to_live := 60, last_accessed := t0 }) ∧
    (((c.update_record t0 k v).get_record (t0 + 30) k).2 = c.update_record t0 k v) ∧
    (((c.update_record t0 k v).get_record (t0 + 61) k).1 = none) := by
  have hlook : (c.update_record t0 k v).records.lookup k
      = some { data := v, time_to_live := 60, last_accessed := t0 } :=
    lookup_cons_self _ _ _
  refine ⟨?_, ?_, ?_, ?_⟩
  · intro h
    cases hl : c.records.lookup k with
    | none =>
      rw [get_record_none hl] at h
      exact absurd h (by simp)
    | some rec =>
      by_cases hex : now - rec.last_accessed > rec.time_to_live
      · rw [get_record_expired hl hex] at h
        exact absurd h (by simp)
      · rw [get_record_live hl hex]
  · rw [get_record_live hlook (by show ¬ t0 + 30 - t0 > 60; omega)]
  · rw [get_record_live hlook (by show ¬ t0 + 30 - t0 > 60; omega)]
  · rw [get_record_expired hlook (by show t0 + 61 - t0 > 60; omega)]

/-- A witness for claim C6: a concrete hit at instant 10 on a live entry
leaves the cache unchanged, and the insert/hit/miss scenario holds at t0 = 0. -/
theorem C6_witness :
    ((⟨[(0, { data := 5, time_to_live := 60, last_accessed := 0 })]⟩ :
        Cache Nat).get_record 10 0).2
      = (⟨[(0, { data := 5, time_to_live := 60, last_accessed := 0 })]⟩ : Cache Nat) ∧
    ((Cache.update_record (⟨[]⟩ : Cache Nat) 0 1 5).get_record 61 1).1 = none :=
  ⟨(C6_no_ttl_extension
      (⟨[(0, { data := 5, time_to_live := 60, last_accessed := 0 })]⟩ : Cache Nat)
      0 10 { data := 5, time_to_live := 60, last_accessed := 0 } 5 0).1 (by decide),
   (C6_no_ttl_extension (⟨[]⟩ : Cache Nat) 1 0
      { data := 5, time_to_live := 60, last_accessed := 0 } 5 0).2.2.2⟩

/-- Claim C10: cache operations only affect their own key or expired entries.
For distinct keys `k ≠ k'`, `update_record` on `k` and `get_record` on `k`
leave the entry for `k'` (value, TTL and `last_accessed` alike) unchanged,
and `cleanup_expired` keeps every entry whose elapsed time is still strictly
below its TTL. -/
theorem C10_cache_frame {T : Type} (c : Cache T) (t : Nat) (k k' : Uuid)
    (v : T) (r : CachedRecord T) (hne : k' ≠ k) :
    ((c.update_record t k v).records.lookup k' = c.records.lookup k') ∧
    (((c.get_record t k).2).records.lookup k' = c.records.lookup k') ∧
    (c.records.lookup k' = some r → t - r.last_accessed < r.time_to_live →
      (c.cleanup_expired t).records.lookup k' = some r) := by
  refine ⟨?_, ?_, ?_⟩
  · unfold Cache.update_record
    simp only
    have : ((k, ({ data := v, time_to_live := 60, last_accessed := t } :
        CachedRecord T)) :: c.records.filter (fun p => p.1 != k)).lookup k'
        = (c.records.filter (fun p => p.1 != k)).lookup k' := by
      simp only [List.lookup]
      have hb : (k' == k) = false := by simpa [beq_iff_eq] using hne
      rw [hb]
    rw [this, lookup_filter_other _ _ _ hne]
  · unfold Cache.get_record
    cases hl : c.records.lookup k with
    | none => rfl
    | some rec =>
      simp only
      by_cases hex : t - rec.last_accessed > rec.time_to_live
      · rw [if_pos hex]
        exact lookup_filter_other _ _ _ hne
      · rw [if_neg hex]
  · intro hl hlive
    unfold Cache.cleanup_expired
    exact lookup_filter_keep hl (by simpa using hlive)

/-- A witness for claim C10 at concrete inputs: an insert and a lookup on key
1 leave key 0 untouched, and a sweep at instant 10 keeps the live entry. -/
theorem C10_witness :
    ((⟨[(0, { data := 5, time_to_live := 60, last_accessed := 0 })]⟩ :
        Cache Nat).update_record 10 1 9).records.lookup 0
      = some { data := 5, time_to_live := 60, last_accessed := 0 } ∧
    ((⟨[(0, { data := 5, time_to_live := 60, last_accessed := 0 })]⟩ :
        Cache Nat).cleanup_expired 10).records.lookup 0
      = some { data := 5, time_to_live := 60, last_accessed := 0 } := by
  have h := C10_cache_frame
    (⟨[(0, { data := 5, time_to_live := 60, last_accessed := 0 })]⟩ : Cache Nat)
    10 1 0 9 { data := 5, time_to_live := 60, last_accessed := 0 } (by decide)
  exact ⟨by rw [h.1]; decide, h.2.2 (by decide) (by decide)⟩

/-! ## Aggregate store and handlers (`src/schema.rs`, `src/routes.rs`) -/

/-- `DeliveryDTO` from `src/schema.rs`. -/
structure DeliveryDTO where
  name : String
  phone : String
  zip : String
  city : String
  address : String
  region : String
  email : String
  deriving DecidableEq

/-- `PaymentDTO` from `src/schema.rs` (machine integers modelled as `Int`). -/
structure PaymentDTO where
  transaction : String
  request_id : String
  currency : String
  provider : String
  amount : Int
  payment_dt : Int
  bank : String
  delivery_cost : Int
  goods_total : Int
  custom_fee : Int
  deriving DecidableEq

/-- `OrderItemDTO` from `src/schema.rs`. -/
structure OrderItemDTO where
  chrt_id : Int
  track_number : String
  price : Int
  rid : String
  name : String
  sale : Int
  size : String
  total_price : Int
  nm_id : Int
  brand : String
  status : Int
  deriving DecidableEq

/-- `CreateOrderDTO` from `src/schema.rs`: the request payload. -/
structure CreateOrderDTO where
  track_number : String
  entry : String
  delivery : DeliveryDTO
  payment : PaymentDTO
  items : List OrderItemDTO
  locale : String
  internal_signature : String
  customer_id : String
  delivery_service : String
  sm_id : Int
  shardkey : String
  oof_shard : String
  deriving DecidableEq

/-- Modelled from the spec: the `Order` header row type is referenced by
`routes.rs` (`OrderService` returns it) but its definition is not among the
provided sources.  Per spec §3 the header carries the server-assigned
identifier, track number, entry point, locale, internal signature, customer
id, delivery service, shard key, sm_id, creation timestamp and oof_shard
(timestamps are modelled by their rendered string). -/
structure Order where
  order_uid : Uuid
  track_number : String
  entry : String
  locale : String
  internal_signature : String
  customer_id : String
  delivery_service : String
  shardkey : String
  sm_id : Int
  date_created : String
  oof_shard : String
  deriving DecidableEq

/-- `GetOrderDTO` from `src/schema.rs`: the assembled aggregate returned to
the client and stored in the cache. -/
structure GetOrderDTO where
  order_uid : String
  track_number : String
  entry : String
  delivery : DeliveryDTO
  payment : PaymentDTO
  items : List OrderItemDTO
  locale : String
  internal_signature : String
  customer_id : String
  delivery_service : String
  sm_id : Int
  date_created : String
  shardkey : String
  oof_shard : String
  deriving DecidableEq

/-- `Uuid::to_string` on the modelled uuid. -/
def uuid_to_string (u : Uuid) : String := toString u

/-- `GetOrderDTO::from_row` from `src/schema.rs`: assemble the response DTO
from the header row and the already-converted payment, delivery and items
(the `NaiveDateTime` column is modelled by its rendered rfc3339 string). -/
def GetOrderDTO.from_row (row : Order) (payment : PaymentDTO)
    (delivery : DeliveryDTO) (order_items : List OrderItemDTO) : GetOrderDTO :=
  { order_uid := uuid_to_string row.order_uid
    track_number := row.track_number
    entry := row.entry
    delivery := delivery
    payment := payment
    items := order_items
    locale := row.locale
    internal_signature := row.internal_signature
    customer_id := row.customer_id
    delivery_service := row.delivery_service
    sm_id := row.sm_id
    date_created := row.date_created
    shardkey := row.shardkey
    oof_shard := row.oof_shard }

/-- Modelled from the spec: `GetOrderDTO::from_order` is called by
`create_order_handler` (`routes.rs` line 80) but its definition is not among
the provided sources.  Per spec §4.3 the create path assembles the committed
aggregate (header, payment, delivery, items) into the same response DTO the
read path produces, so it performs the same field mapping as `from_row`. -/
def GetOrderDTO.from_order (order : Order) (payment : PaymentDTO)
    (delivery : DeliveryDTO) (order_items : List OrderItemDTO) : GetOrderDTO :=
  GetOrderDTO.from_row order payment delivery order_items

/-- The relational state: the four tables of the aggregate plus the
server-side generators (`next_uid` models `gen_random_uuid()` for the
`orders` primary key, `next_date` models the `now()` default of
`date_created`).  The three child tables are keyed by `order_uid`. -/
structure Db where
  orders : List Order
  delivery : List (Uuid × DeliveryDTO)
  payment : List (Uuid × PaymentDTO)
  items : List (Uuid × OrderItemDTO)
  next_uid : Uuid
  next_date : String
  deriving DecidableEq

/-- A SQL transaction: statements act on the draft; the snapshot is the
committed state the transaction began from. -/
structure Transaction where
  snapshot : Db
  draft : Db
  deriving DecidableEq

/-- `Client::transaction()`: begin a transaction on the committed state. -/
def Transaction.begin (db : Db) : Transaction := ⟨db, db⟩

/-- `Transaction::rollback()`: discard the draft, restoring the snapshot. -/
def Transaction.rollback (tx : Transaction) : Db := tx.snapshot

/-- `Transaction::commit()`: install the draft as the committed state. -/
def Transaction.commit (tx : Transaction) : Db := tx.draft

/-- The steps of `create_order_handler` at which an injected database fault
can make the corresponding statement fail. -/
inductive CreateStep
  | begin
  | order
  | delivery
  | payment
  | items
  | commit
  deriving DecidableEq

/-- Store-level errors: an injected fault at a given step, the
`tokio_postgres` error for `query_one` finding no row (`RowCount`), the
corresponding error for more than one row, and the rejection of a
syntactically invalid statement. -/
inductive DbError
  | stepFailed (step : CreateStep)
  | noRows
  | manyRows
  | badSql (query : String)
  deriving DecidableEq

/-- The header row minted by the `orders` INSERT of `OrderService::create_one`
(`routes.rs` lines 293-331): `order_uid` and `date_created` are filled by the
server-side defaults and handed back through `RETURNING`. -/
def OrderService.new_order (db : Db) (body : CreateOrderDTO) : Order :=
  { order_uid := db.next_uid
    track_number := body.track_number
    entry := body.entry
    locale := body.locale
    internal_signature := body.internal_signature
    customer_id := body.customer_id
    delivery_service := body.delivery_service
    shardkey := body.shardkey
    sm_id := body.sm_id
    date_created := db.next_date
    oof_shard := body.oof_shard }

/-- `OrderService::create_one` (`routes.rs` lines 293-331): run the header
INSERT inside the transaction; an injected fault at the order step makes the
statement fail. -/
def OrderService.create_one (faults : List CreateStep) (tx : Transaction)
    (body : CreateOrderDTO) : Except DbError (Order × Transaction) :=
  if CreateStep.order ∈ faults then .error (.stepFailed .order) else
  let created : Order := OrderService.new_order tx.draft body
  .ok (created,
    { tx with draft :=
        { tx.draft with
            orders := tx.draft.orders ++ [created]
            next_uid := tx.draft.next_uid + 1 } })

/-- `DeliveryService::create_one` (`routes.rs` lines 427-464): INSERT the
delivery row keyed by the header identifier passed through `params[0]`;
`RETURNING` echoes the inserted values. -/
def DeliveryService.create_one (faults : List CreateStep) (tx : Transaction)
    (body : DeliveryDTO) (order_uid : Uuid) :
    Except DbError (DeliveryDTO × Transaction) :=
  if CreateStep.delivery ∈ faults then .error (.stepFailed .delivery) else
  .ok (body,
    { tx with draft :=
        { tx.draft with delivery := tx.draft.delivery ++ [(order_uid, body)] } })

/-- `PaymentService::create_one` (`routes.rs` lines 232-274): INSERT the
payment row keyed by the header identifier; `RETURNING` echoes the inserted
values. -/
def PaymentService.create_one (faults : List CreateStep) (tx : Transaction)
    (body : PaymentDTO) (order_uid : Uuid) :
    Except DbError (PaymentDTO × Transaction) :=
  if CreateStep.payment ∈ faults then .error (.stepFailed .payment) else
  .ok (body,
    { tx with draft :=
        { tx.draft with payment := tx.draft.payment ++ [(order_uid, body)] } })

/-- One parenthesised group of the multi-row VALUES list built by
`OrderItemsService::create_many` (`routes.rs` lines 364-380): twelve
parameter references starting at `param_start = i * 12 + 1`. -/
def OrderItemsService.item_values_group (param_start : Nat) : String :=
  "($" ++ toString param_start ++
  ", $" ++ toString (param_start + 1) ++
  ", $" ++ toString (param_start + 2) ++
  ", $" ++ toString (param_start + 3) ++
  ", $" ++ toString (param_start + 4) ++
  ", $" ++ toString (param_start + 5) ++
  ", $" ++ toString (param_start + 6) ++
  ", $" ++ toString (param_start + 7) ++
  ", $" ++ toString (param_start + 8) ++
  ", $" ++ toString (param_start + 9) ++
  ", $" ++ toString (param_start + 10) ++
  ", $" ++ toString (param_start + 11) ++ "),"

/-- The SQL text built by `OrderItemsService::create_many` (`routes.rs`
lines 356-402), with the source's whitespace normalised to single spaces:
the fixed INSERT prefix, one `(...),` group per item, `query.pop()` removing
the final character, and the RETURNING suffix. -/
def OrderItemsService.items_query (body : List OrderItemDTO) : String :=
  let prefix_str :=
    "INSERT INTO items (order_uid, chrt_id, track_number, price, rid, name, " ++
    "sale, size, total_price, nm_id, brand, status) VALUES "
  let groups := (List.range body.length).map
    (fun i => OrderItemsService.item_values_group (i * 12 + 1))
  ((prefix_str ++ String.join groups).dropRight 1) ++
    " RETURNING chrt_id, track_number, price, rid, name, sale, size, " ++
    "total_price, nm_id, brand, status"

/-- `OrderItemsService::create_many` (`routes.rs` lines 350-410): one
multi-row INSERT whose every row is keyed by the header identifier
(`_params[0]`).  With an empty items list the builder emits no `(...)` group,
so `query.pop()` eats the space after `VALUES` and the statement degenerates
to `... VALUES RETURNING ...`, which PostgreSQL rejects as a syntax error:
this is modelled by the `badSql` branch. -/
def OrderItemsService.create_many (faults : List CreateStep) (tx : Transaction)
    (body : List OrderItemDTO) (order_uid : Uuid) :
    Except DbError (List OrderItemDTO × Transaction) :=
  if CreateStep.items ∈ faults then .error (.stepFailed .items) else
  if body.length = 0 then .error (.badSql (OrderItemsService.items_query body)) else
  .ok (body,
    { tx with draft :=
        { tx.draft with
            items := tx.draft.items ++ body.map (fun item => (order_uid, item)) } })

/-- Modelled from the spec: `handle_transaction_error` is called by
`create_order_handler` but its definition is not among the provided sources.
Per spec §4.2/§7 it rolls the transaction back (a failed rollback is only
logged and never changes the surfaced error) and produces the 500 response
that carries the failing step's error together with the handler's context
message.  The rollback itself is performed at the call sites below via
`Transaction.rollback`; this function shapes the returned error. -/
def handle_transaction_error (err : DbError) (context : String) :
    DbError × String :=
  (err, context)

/-- The state the handlers act on: the committed database behind the shared
client handle and the TTL cache (`AppState` from `src/main.rs`). -/
structure AppState where
  db : Db
  cache : Cache GetOrderDTO
  deriving DecidableEq

/-- `create_order_handler` (`routes.rs` lines 23-111).  Begins a transaction,
runs the four inserts in order — header, delivery, payment, items — each
aborting the transaction (rollback) and surfacing its own error on failure;
then assembles the aggregate, writes it into the TTL cache, and only then
commits.  A failed commit surfaces the literal commit error while the
transaction's draft is discarded.  `faults` injects statement failures;
`now` is the instant of the cache insert. -/
def create_order_handler (faults : List CreateStep) (now : Nat)
    (st : AppState) (body : CreateOrderDTO) :
    Except (DbError × String) Uuid × AppState :=
  if CreateStep.begin ∈ faults then
    (.error (.stepFailed .begin, "Database error"), st)
  else
    let transaction0 := Transaction.begin st.db
    match OrderService.create_one faults transaction0 body with
    | .error err =>
      (.error (handle_transaction_error err "Create order error"),
       ⟨Transaction.rollback transaction0, st.cache⟩)
    | .ok (created_order, transaction1) =>
      let created_order_uuid := created_order.order_uid
      match DeliveryService.create_one faults transaction1 body.delivery
          created_order_uuid with
      | .error err =>
        (.error (handle_transaction_error err "Create delivery error"),
         ⟨Transaction.rollback transaction1, st.cache⟩)
      | .ok (created_delivery, transaction2) =>
        match PaymentService.create_one faults transaction2 body.payment
            created_order_uuid with
        | .error err =>
          (.error (handle_transaction_error err "Create payment error"),
           ⟨Transaction.rollback transaction2, st.cache⟩)
        | .ok (created_payment, transaction3) =>
          match OrderItemsService.create_many faults transaction3 body.items
              created_order_uuid with
          | .error err =>
            (.error (handle_transaction_error err "Create items error"),
             ⟨Transaction.rollback transaction3, st.cache⟩)
          | .ok (created_order_items, transaction4) =>
            let order := GetOrderDTO.from_order created_order created_payment
              created_delivery created_order_items
            let cache1 := st.cache.update_record now created_order_uuid order
            if CreateStep.commit ∈ faults then
              (.error (.stepFailed .commit, "Failed to commit transaction"),
               ⟨Transaction.rollback transaction4, cache1⟩)
            else
              (.ok created_order_uuid, ⟨Transaction.commit transaction4, cache1⟩)

/-- `OrderService::get_one_by_id` (`routes.rs` lines 277-292): `query_one`
over the `orders` table, which errors when the query yields no row
(`noRows`) or more than one. -/
def OrderService.get_one_by_id (db : Db) (id : Uuid) : Except DbError Order :=
  match db.orders.filter (fun o => o.order_uid == id) with
  | [row] => .ok row
  | [] => .error .noRows
  | _ => .error .manyRows

/-- `PaymentService::get_one_by_id` (`routes.rs` lines 216-231). -/
def PaymentService.get_one_by_id (db : Db) (id : Uuid) :
    Except DbError PaymentDTO :=
  match (db.payment.filter (fun p => p.1 == id)).map Prod.snd with
  | [row] => .ok row
  | [] => .error .noRows
  | _ => .error .manyRows

/-- `DeliveryService::get_one_by_id` (`routes.rs` lines 413-426). -/
def DeliveryService.get_one_by_id (db : Db) (id : Uuid) :
    Except DbError DeliveryDTO :=
  match (db.delivery.filter (fun p => p.1 == id)).map Prod.snd with
  | [row] => .ok row
  | [] => .error .noRows
  | _ => .error .manyRows

/-- `OrderItemsService::get_many_by_id` (`routes.rs` lines 334-349): a plain
`query`, which succeeds with zero or more rows. -/
def OrderItemsService.get_many_by_id (db : Db) (id : Uuid) :
    List OrderItemDTO :=
  (db.items.filter (fun p => p.1 == id)).map Prod.snd

/-- Errors of the read path: the 404 not-found response and the 500 response
wrapping a store error with the handler's context message. -/
inductive GetErr
  | notFound
  | storeErr (e : DbError) (context : String)
  deriving DecidableEq

/-- The HTTP status the read-path errors map to (`StatusCode::NOT_FOUND` and
`StatusCode::INTERNAL_SERVER_ERROR`). -/
def GetErr.status : GetErr → Nat
  | .notFound => 404
  | .storeErr _ _ => 500

/-- Modelled from the spec: `handle_get_request_error` is called by
`get_order_handler` but its definition is not among the provided sources.
Per spec §4.2/§6 a header read that finds no row yields NotFound (mapped to
404); every other store failure is surfaced as a 500 error. -/
def handle_get_request_error (err : DbError) (context : String) : GetErr :=
  match err with
  | .noRows => .notFound
  | e => .storeErr e context

/-- Instrumentation: which store reads `get_order_handler` performed, in
order (spec §8 observes cache-aside correctness "via an instrumented store
that counts calls"). -/
inductive ReadStep
  | order
  | payment
  | delivery
  | items
  deriving DecidableEq

/-- `get_order_handler` (`routes.rs` lines 115-173).  Checks the TTL cache
first and answers a hit without any store read; on a miss performs the four
point reads in order — header, payment, delivery, items — returning the
mapped error of the first failing read.  (The `order_row.is_empty()` check
at line 131 is dead: a row returned by `query_one` always carries the 11
selected columns, so the missing-header case surfaces as the `query_one`
error handled one line above.)  Returns the response, the resulting state
and the list of store reads performed. -/
def get_order_handler (now : Nat) (st : AppState) (id : Uuid) :
    Except GetErr GetOrderDTO × AppState × List ReadStep :=
  match st.cache.get_record now id with
  | (some cached_item, cache1) =>
    (.ok cached_item.data, ⟨st.db, cache1⟩, [])
  | (none, cache1) =>
    match OrderService.get_one_by_id st.db id with
    | .error err =>
      (.error (handle_get_request_error err "Get order error"),
       ⟨st.db, cache1⟩, [.order])
    | .ok order_row =>
      match PaymentService.get_one_by_id st.db id with
      | .error err =>
        (.error (handle_get_request_error err "Payment query error"),
         ⟨st.db, cache1⟩, [.order, .payment])
      | .ok payment_row =>
        match DeliveryService.get_one_by_id st.db id with
        | .error err =>
          (.error (handle_get_request_error err "Delivery query error"),
           ⟨st.db, cache1⟩, [.order, .payment, .delivery])
        | .ok delivery_row =>
          let order_item_rows := OrderItemsService.get_many_by_id st.db id
          let order := GetOrderDTO.from_row order_row payment_row delivery_row
            order_item_rows
          (.ok order, ⟨st.db, cache1⟩, [.order, .payment, .delivery, .items])

/-- Freshness of the server-side uuid generator: every header row and every
cache key is strictly below the next uuid to be minted, so a freshly minted
identifier collides with neither. -/
def AppState.fresh_ok (st : AppState) : Prop :=
  (∀ o ∈ st.db.orders, o.order_uid < st.db.next_uid) ∧
  (∀ p ∈ st.cache.records, p.1 < st.db.next_uid)

instance (st : AppState) : Decidable (AppState.fresh_ok st) :=
  inferInstanceAs (Decidable
    ((∀ o ∈ st.db.orders, o.order_uid < st.db.next_uid) ∧
     (∀ p ∈ st.cache.records, p.1 < st.db.next_uid)))

/-- The context string `create_order_handler` attaches to each step's
failure. -/
def create_step_context : CreateStep → String
  | .begin => "Database error"
  | .order => "Create order error"
  | .delivery => "Create delivery error"
  | .payment => "Create payment error"
  | .items => "Create items error"
  | .commit => "Failed to commit transaction"

/- Concrete sample payloads, mirroring `src/fill_test_data.rs`. -/

def sample_delivery : DeliveryDTO :=
  { name := "John Doe", phone := "555-1234", zip := "12345",
    city := "Sample City", address := "1234 Sample Street",
    region := "Sample Region", email := "john.doe@example.com" }

def sample_payment : PaymentDTO :=
  { transaction := "tx12345", request_id := "rq12345", currency := "USD",
    provider := "Visa", amount := 100, payment_dt := 1637924400,
    bank := "Sample Bank", delivery_cost := 5, goods_total := 95,
    custom_fee := 0 }

def sample_item : OrderItemDTO :=
  { chrt_id := 123456789, track_number := "TN123456789", price := 100,
    rid := "RID12345", name := "Sample Item", sale := 10, size := "M",
    total_price := 90, nm_id := 987654321, brand := "Sample Brand",
    status := 1 }

def sample_body : CreateOrderDTO :=
  { track_number := "TN123456789", entry := "warehouse",
    delivery := sample_delivery, payment := sample_payment,
    items := [sample_item], locale := "en_US",
    internal_signature := "sig12345", customer_id := "cust-1",
    delivery_service := "DHL", sm_id := 1, shardkey := "sk123",
    oof_shard := "shard1" }

/-- An initial application state: empty tables, empty cache. -/
def empty_state : AppState :=
  ⟨⟨[], [], [], [], 0, "2021-11-26T11:00:00+00:00"⟩, ⟨[]⟩⟩

/- Further facts about `get_record` used by the read-path claims. -/

theorem get_record_snd_sublist {T : Type} (c : Cache T) (now key : Nat) :
    ((c.get_record now key).2).records.Sublist c.records := by
  cases hl : c.records.lookup key with
  | none =>
    rw [get_record_none hl]
  | some r =>
    by_cases hex : now - r.last_accessed > r.time_to_live
    · rw [get_record_expired hl hex]
      exact List.filter_sublist _
    · rw [get_record_live hl hex]

theorem get_record_miss_absent {T : Type} (c : Cache T) (now key : Nat)
    (h : (c.get_record now key).1 = none) :
    ((c.get_record now key).2).records.lookup key = none := by
  cases hl : c.records.lookup key with
  | none =>
    rw [get_record_none hl]
    exact hl
  | some r =>
    by_cases hex : now - r.last_accessed > r.time_to_live
    · rw [get_record_expired hl hex]
      exact lookup_filter_self _ _
    · rw [get_record_live hl hex] at h
      exact absurd h (by simp)

/-- A freshly minted aggregate id is found neither in the cache nor in the
`orders` table, so reading it yields NotFound. -/
theorem get_fresh_not_found (st : AppState) (now : Nat)
    (hfresh : st.fresh_ok) :
    (get_order_handler now st st.db.next_uid).1 = .error .notFound := by
  have hcache : st.cache.records.lookup st.db.next_uid = none := by
    apply lookup_eq_none_of_keys
    intro p hp
    exact Nat.ne_of_lt (hfresh.2 p hp)
  have horder :
      st.db.orders.filter (fun o => o.order_uid == st.db.next_uid) = [] := by
    rw [List.filter_eq_nil_iff]
    intro o ho
    have hlt := hfresh.1 o ho
    simp only [beq_iff_eq]
    exact Nat.ne_of_lt hlt
  have hread : OrderService.get_one_by_id st.db st.db.next_uid
      = .error .noRows := by
    unfold OrderService.get_one_by_id
    rw [horder]
  unfold get_order_handler
  rw [get_record_none hcache, hread]
  rfl

/-- Claim C1: if any of the four insert steps of a create fails, the
transaction is aborted with an explicit rollback, the call returns the
failing step's error, the committed database and the cache are exactly as
before, and a subsequent read of the freshly minted aggregate id yields
NotFound. -/
theorem C1_create_atomicity (st : AppState) (body : CreateOrderDTO)
    (now : Nat) (step : CreateStep) (hfresh : st.fresh_ok)
    (hstep : step = .order ∨ step = .delivery ∨ step = .payment ∨
      step = .items) :
    (create_order_handler [step] now st body).1
      = .error (.stepFailed step, create_step_context step) ∧
    (create_order_handler [step] now st body).2 = st ∧
    (get_order_handler now (create_order_handler [step] now st body).2
        st.db.next_uid).1 = .error .notFound := by
  have hget := get_fresh_not_found st now hfresh
  have hmain : (create_order_handler [step] now st body).1
      = .error (.stepFailed step, create_step_context step) ∧
      (create_order_handler [step] now st body).2 = st := by
    rcases hstep with h | h | h | h <;> subst h <;>
      simp [create_order_handler, OrderService.create_one,
        DeliveryService.create_one, PaymentService.create_one,
        OrderItemsService.create_many, handle_transaction_error,
        Transaction.begin, Transaction.rollback, create_step_context]
  refine ⟨hmain.1, hmain.2, ?_⟩
  rw [hmain.2]
  exact hget

/-- A witness for claim C1: a payment-step failure on the sample request
leaves the empty state untouched and the minted id unreadable. -/
theorem C1_witness :
    (create_order_handler [CreateStep.payment] 0 empty_state sample_body).1
      = .error (.stepFailed .payment, "Create payment error") ∧
    (create_order_handler [CreateStep.payment] 0 empty_state sample_body).2
      = empty_state ∧
    (get_order_handler 0
        (create_order_handler [CreateStep.payment] 0 empty_state sample_body).2
        0).1 = .error .notFound := by
  have h := C1_create_atomicity empty_state sample_body 0 .payment
    (by decide) (Or.inr (Or.inr (Or.inl rfl)))
  exact ⟨h.1, h.2.1, h.2.2⟩

/-- Claim C2 is contradicted by the code: `create_order_handler` writes the
assembled aggregate into the TTL cache (routes.rs lines 87-90) *before*
committing the transaction (lines 93-101).  When the commit fails the error
is surfaced and no rows are committed, yet the cache holds an entry for the
aggregate's id — and the next get is even answered from the cache without a
store read, serving an aggregate the store never committed. -/
theorem C2_cache_filled_despite_failed_commit :
    (create_order_handler [CreateStep.commit] 0 empty_state sample_body).1
      = .error (.stepFailed .commit, "Failed to commit transaction") ∧
    (create_order_handler [CreateStep.commit] 0 empty_state
        sample_body).2.db = empty_state.db ∧
    (create_order_handler [CreateStep.commit] 0 empty_state
        sample_body).2.cache.records.lookup 0 ≠ none ∧
    (get_order_handler 0
        (create_order_handler [CreateStep.commit] 0 empty_state
          sample_body).2 0).2.2 = [] := by
  decide

/-- Claim C3: for an id with no header row and no cache entry, the read
returns NotFound (carried to a 404 response) after performing only the
header read — the payment, delivery and items reads are never attempted. -/
theorem C3_missing_header_not_found (st : AppState) (id : Uuid) (now : Nat)
    (hcache : st.cache.records.lookup id = none)
    (hrow : st.db.orders.filter (fun o => o.order_uid == id) = []) :
    (get_order_handler now st id).1 = .error .notFound ∧
    (get_order_handler now st id).2.2 = [ReadStep.order] ∧
    GetErr.status .notFound = 404 := by
  have hread : OrderService.get_one_by_id st.db id = .error .noRows := by
    unfold OrderService.get_one_by_id
    rw [hrow]
  unfold get_order_handler
  rw [get_record_none hcache, hread]
  exact ⟨rfl, rfl, rfl⟩

/-- A witness for claim C3: reading id 9 from the empty state. -/
theorem C3_witness :
    (get_order_handler 0 empty_state 9).1 = .error .notFound ∧
    (get_order_handler 0 empty_state 9).2.2 = [ReadStep.order] ∧
    GetErr.status .notFound = 404 :=
  C3_missing_header_not_found empty_state 9 0 (by decide) (by decide)

/-- Claim C7 is contradicted by the code on the empty-items case: with zero
items `OrderItemsService::create_many` emits no `(...)` group, `query.pop()`
eats the space after `VALUES`, and the statement degenerates to
`... VALUES RETURNING ...`, which the database rejects, so the create fails
instead of succeeding.  With one or more items the single multi-row
statement does insert every row keyed by the header's identifier and the
create succeeds. -/
theorem C7_empty_items_rejected :
    OrderItemsService.items_query []
      = "INSERT INTO items (order_uid, chrt_id, track_number, price, rid, " ++
        "name, sale, size, total_price, nm_id, brand, status) VALUES" ++
        " RETURNING chrt_id, track_number, price, rid, name, sale, size, " ++
        "total_price, nm_id, brand, status" ∧
    (create_order_handler [] 0 empty_state
        { sample_body with items := [] }).1
      = .error (.badSql (OrderItemsService.items_query []),
          "Create items error") ∧
    (create_order_handler [] 0 empty_state sample_body).1 = .ok 0 ∧
    (create_order_handler [] 0 empty_state sample_body).2.db.items
      = [(0, sample_item)] := by
  refine ⟨?_, ?_, ?_, ?_⟩ <;> decide

/-- Claim C8: immediately after a successful create, a get of the new id is
answered from the cache: it returns exactly the aggregate DTO the create
assembled and performs no store read. -/
theorem C8_create_then_get_hit (st : AppState) (body : CreateOrderDTO)
    (now : Nat) (hitems : body.items ≠ []) :
    (create_order_handler [] now st body).1 = .ok st.db.next_uid ∧
    (get_order_handler now (create_order_handler [] now st body).2
        st.db.next_uid).1
      = .ok (GetOrderDTO.from_order (OrderService.new_order st.db body)
          body.payment body.delivery body.items) ∧
    (get_order_handler now (create_order_handler [] now st body).2
        st.db.next_uid).2.2 = [] := by
  have hlen : ¬ body.items.length = 0 := by
    intro h
    exact hitems (List.length_eq_zero.mp h)
  have hcreate : create_order_handler [] now st body
      = (.ok st.db.next_uid,
         ⟨{ orders := st.db.orders ++ [OrderService.new_order st.db body]
            delivery := st.db.delivery ++ [(st.db.next_uid, body.delivery)]
            payment := st.db.payment ++ [(st.db.next_uid, body.payment)]
            items := st.db.items ++
              body.items.map (fun item => (st.db.next_uid, item))
            next_uid := st.db.next_uid + 1
            next_date := st.db.next_date },
          st.cache.update_record now st.db.next_uid
            (GetOrderDTO.from_order (OrderService.new_order st.db body)
              body.payment body.delivery body.items)⟩) := by
    simp [create_order_handler, OrderService.create_one,
      DeliveryService.create_one, PaymentService.create_one,
      OrderItemsService.create_many, Transaction.begin, Transaction.commit,
      OrderService.new_order, hlen]
  have hlook : ((create_order_handler [] now st body).2.cache).records.lookup
      st.db.next_uid
      = some ⟨GetOrderDTO.from_order (OrderService.new_order st.db body)
          body.payment body.delivery body.items, 60, now⟩ := by
    rw [hcreate]
    exact lookup_cons_self _ _ _
  have hhit := get_record_live hlook (by show ¬ now - now > 60; omega)
  refine ⟨by rw [hcreate], ?_, ?_⟩ <;>
    · unfold get_order_handler
      rw [hhit]

/-- A witness for claim C8: create-then-get of the sample request on the
empty state is a cache hit with no store read. -/
theorem C8_witness :
    (create_order_handler [] 0 empty_state sample_body).1 = .ok 0 ∧
    (get_order_handler 0 (create_order_handler [] 0 empty_state sample_body).2
        0).2.2 = [] := by
  have h := C8_create_then_get_hit empty_state sample_body 0 (by decide)
  exact ⟨h.1, h.2.2⟩

/-- The header row of the C9 scenario's persisted aggregate (id 5). -/
def c9_header : Order :=
  { order_uid := 5, track_number := "TN123456789", entry := "warehouse",
    locale := "en_US", internal_signature := "sig12345",
    customer_id := "cust-1", delivery_service := "DHL",
    shardkey := "sk123", sm_id := 1,
    date_created := "2021-11-26T11:00:00+00:00", oof_shard := "shard1" }

/-- The assembled DTO of the C9 scenario's aggregate. -/
def c9_dto : GetOrderDTO :=
  GetOrderDTO.from_row c9_header sample_payment sample_delivery [sample_item]

/-- The database of the C9 scenario: a fully persisted aggregate with id 5. -/
def c9_db : Db :=
  ⟨[c9_header], [(5, sample_delivery)], [(5, sample_payment)],
   [(5, sample_item)], 6, "2021-11-26T11:00:00+00:00"⟩

/-- The state of the C9 scenario: the aggregate is in the store and the
cache holds a long-expired entry for it, inserted at instant 0. -/
def c9_state : AppState :=
  ⟨c9_db, ⟨[(5, ⟨c9_dto, 60, 0⟩)]⟩⟩

/-- Claim C9 is contradicted by the code on the lazy-expiry miss: a get at
instant 100 of id 5 misses the cache (the entry inserted at instant 0 is
expired), is answered from the store with all four reads — and the cache is
NOT unchanged: the lookup removed the expired entry as a side effect. -/
theorem C9_counterexample :
    (get_order_handler 100 c9_state 5).2.2
      = [ReadStep.order, ReadStep.payment, ReadStep.delivery,
         ReadStep.items] ∧
    (get_order_handler 100 c9_state 5).2.1.cache.records = [] ∧
    c9_state.cache.records ≠ [] := by
  decide

/-- Claim C9 (amended): a get that misses the cache and is answered from the
store never inserts into the cache — the resulting cache is exactly the
lazy-expiry output of the lookup, a sublist of the previous records with no
entry left for the requested id (unchanged when no entry for the id existed;
an expired entry for the id is removed) — so every subsequent read of that
id keeps going to the store. -/
theorem C9_no_repopulation (st : AppState) (id : Uuid) (now : Nat)
    (hmiss : (st.cache.get_record now id).1 = none) :
    (get_order_handler now st id).2.1.db = st.db ∧
    (get_order_handler now st id).2.1.cache = (st.cache.get_record now id).2 ∧
    ((get_order_handler now st id).2.1.cache.records.Sublist
      st.cache.records) ∧
    (get_order_handler now st id).2.1.cache.records.lookup id = none := by
  have hsub := get_record_snd_sublist st.cache now id
  have habs := get_record_miss_absent st.cache now id hmiss
  have hpair : st.cache.get_record now id
      = (none, (st.cache.get_record now id).2) := by
    rw [← hmiss]
  unfold get_order_handler
  rw [hpair]
  cases OrderService.get_one_by_id st.db id with
  | error e => exact ⟨rfl, rfl, hsub, habs⟩
  | ok row =>
    cases PaymentService.get_one_by_id st.db id with
    | error e => exact ⟨rfl, rfl, hsub, habs⟩
    | ok p =>
      cases DeliveryService.get_one_by_id st.db id with
      | error e => exact ⟨rfl, rfl, hsub, habs⟩
      | ok d => exact ⟨rfl, rfl, hsub, habs⟩

/-- A witness for the amended claim C9 at the concrete C9 scenario. -/
theorem C9_witness :
    (get_order_handler 100 c9_state 5).2.1.db = c9_state.db ∧
    (get_order_handler 100 c9_state 5).2.1.cache
      = (c9_state.cache.get_record 100 5).2 ∧
    ((get_order_handler 100 c9_state 5).2.1.cache.records.Sublist
      c9_state.cache.records) ∧
    (get_order_handler 100 c9_state 5).2.1.cache.records.lookup 5 = none :=
  C9_no_repopulation c9_state 5 100 (by decide)

end RustWbL0
